import Mathlib

/-!
Verification development for the `craw-hot` crawler
(`src/skills/craw-hot/scripts/craw_hot.py`).

The Python source is shallowly embedded: every method that a claim touches
is translated into an executable Lean definition.  Python values flowing
through `json.loads` / dict lookups are modelled by the inductive `PyVal`;
Python `None` is `PyVal.none`; an uncaught Python exception is modelled by
`Except PyError`.  External effects (subprocess runs, HTTP requests,
`json.loads`) are passed in as explicit arguments so that every definition
is a pure, executable function of its inputs.
-/

namespace CrawHot

/-- Model of a Python value as it appears in this program: the results of
`json.loads`, dict lookups and the scalar replies of the browser control
surface.  `PyVal.none` is Python `None`. -/
inductive PyVal where
  | none : PyVal
  | bool : Bool → PyVal
  | int : Int → PyVal
  | str : String → PyVal
  | list : List PyVal → PyVal
  | dict : List (String × PyVal) → PyVal
deriving Repr

/-- Python truthiness (`if x:`) for the values modelled by `PyVal`. -/
def pyTruthy : PyVal → Bool
  | .none => false
  | .bool b => b
  | .int n => n != 0
  | .str s => s ≠ ""
  | .list xs => ¬ xs.isEmpty
  | .dict es => ¬ es.isEmpty

/-- Python `d.get(k)` on a dict (association list, first binding wins):
returns the bound value, or `None` when the key is absent. -/
def pyGet (es : List (String × PyVal)) (k : String) : PyVal :=
  match es.find? (fun e => e.1 == k) with
  | some e => e.2
  | Option.none => PyVal.none

/-- The opening-brace character, written via its code point. -/
def openBrace : Char := Char.ofNat 123

/-- Python `str.strip()` restricted to ASCII whitespace (the only
whitespace occurring in this program's inputs): drop whitespace from
both ends. -/
def pyStrip (s : String) : String :=
  String.mk
    (((s.toList.dropWhile Char.isWhitespace).reverse.dropWhile Char.isWhitespace).reverse)

/-- Python `str.split('\n')`: split at every newline, keeping empty
pieces (splitting the empty string yields one empty piece). -/
def splitNewlines : List Char → List Char → List String
  | [], acc => [String.mk acc.reverse]
  | c :: cs, acc =>
    if c == '\n' then String.mk acc.reverse :: splitNewlines cs []
    else splitNewlines cs (c :: acc)

/-- `output.strip().split('\n')` from `BrowserClient._parse_output`
(line 194 of the source). -/
def pyLines (output : String) : List String :=
  splitNewlines (pyStrip output).toList []

/-- An uncaught Python exception. -/
inductive PyError where
  | valueError : PyError
deriving Repr, DecidableEq

/-- `s.startswith(p)` as a structural check on the character lists. -/
def pyStartswith (p t : String) : Bool :=
  p.toList.isPrefixOf t.toList

/-- `line_stripped.startswith(('│', '├', '╯', '◇'))` — the decorative
diagnostic prefixes skipped by `_parse_output` (line 202). -/
def isDecorative (t : String) : Bool :=
  ["│", "├", "╯", "◇"].any (fun p => pyStartswith p t)

/-- Line 206: a non-empty stripped line starting a JSON payload
(`{`, `"` or `[`). -/
def isJsonStart (t : String) : Bool :=
  match t.toList with
  | [] => false
  | c :: _ => c == openBrace || c == '"' || c == '['

/-- `line_stripped.lstrip('-').isdigit()` (line 217), ASCII model of
`str.isdigit`: after removing every leading `-`, a non-empty all-digit
remainder. -/
def isDigitLine (t : String) : Bool :=
  let core := t.toList.dropWhile (fun c => c == '-')
  (¬ core.isEmpty) && core.all Char.isDigit

/-- Numeric value of a list of ASCII digits. -/
def digitsToNat (cs : List Char) : Nat :=
  cs.foldl (fun a c => 10 * a + (c.toNat - 48)) 0

/-- `int(line_stripped)` (line 218) on a line that passed `isDigitLine`:
Python's `int` accepts at most one leading sign, so a line such as
`"--5"` (whose `lstrip('-')` is all digits) raises `ValueError`. -/
def pyIntLine (t : String) : Except PyError PyVal :=
  let minuses := t.toList.takeWhile (fun c => c == '-')
  let core := t.toList.dropWhile (fun c => c == '-')
  if minuses.length = 0 then Except.ok (PyVal.int (digitsToNat core))
  else if minuses.length = 1 then Except.ok (PyVal.int (-(digitsToNat core : Int)))
  else Except.error PyError.valueError

/-- A stripped line on which `_parse_output`'s scalar branch raises:
its `lstrip('-')` is a non-empty digit string (so `isdigit()` passes)
but it carries two or more leading `-` signs, which `int(...)`
rejects. -/
def isBadIntLine (t : String) : Bool :=
  isDigitLine t && 2 ≤ (t.toList.takeWhile (fun c => c == '-')).length

/-- The dict `\x7b"ok": True, "result": v\x7d` built throughout
`_parse_output`. -/
def mkOk (v : PyVal) : PyVal :=
  PyVal.dict [("ok", PyVal.bool true), ("result", v)]

/-- Outcome of the first scanning loop of `_parse_output`
(lines 197-218): either a scalar reply was produced (or `int` raised),
or a JSON-start line was found (with the remaining lines), or the lines
were exhausted. -/
inductive ScanOutcome where
  | scalar : Except PyError PyVal → ScanOutcome
  | jsonFrom : String → List String → ScanOutcome
  | nothingFound : ScanOutcome
deriving Repr

/-- The first loop of `_parse_output` (lines 197-218): skip decorative
lines, stop at the first JSON-start line, recognise bare `true`/`false`
and bare (possibly `-`-prefixed) digit lines as scalar replies. -/
def scanLines : List String → ScanOutcome
  | [] => ScanOutcome.nothingFound
  | l :: ls =>
    let t := pyStrip l
    if isDecorative t then scanLines ls
    else if isJsonStart t then ScanOutcome.jsonFrom t ls
    else if t = "true" then ScanOutcome.scalar (Except.ok (PyVal.bool true))
    else if t = "false" then ScanOutcome.scalar (Except.ok (PyVal.bool false))
    else if isDigitLine t then ScanOutcome.scalar (pyIntLine t)
    else scanLines ls

/-- Normalisation applied to a successfully `json.loads`-parsed value
(lines 228-236 and 244-252): a string or non-dict is wrapped in an
`ok`/`result` dict; a dict is returned as-is when its `"ok"` entry is
truthy, otherwise its `"result"` entry is wrapped. -/
def normalizeJson (v : PyVal) : PyVal :=
  match v with
  | PyVal.str s => mkOk (PyVal.str s)
  | PyVal.dict es => if pyTruthy (pyGet es "ok") then PyVal.dict es else mkOk (pyGet es "result")
  | other => mkOk other

/-- The accumulation loop of `_parse_output` (lines 222-239) followed by
the final re-parse (line 243): starting from the JSON-start line, keep
appending the following lines (joined by `'\n'`) until `json.loads`
(passed in as `J`, an external collaborator) succeeds; after the last
line, try once more on the full accumulated text. -/
def jsonAccumLoop (J : String → Option PyVal) : String → List String → Option PyVal
  | acc, [] => J acc
  | acc, l :: ls =>
    let acc' := acc ++ "\n" ++ l
    match J acc' with
    | some v => some v
    | Option.none => jsonAccumLoop J acc' ls

/-- `BrowserClient._parse_output` (lines 192-259).  `J` stands for
`json.loads`, returning `none` where Python raises `JSONDecodeError`.
The result is `Except.error` when the method raises (`int` on a line
such as `"--5"`), `.ok none` when it returns `None`, and `.ok (some d)`
when it returns a reply dict. -/
def parseOutput (J : String → Option PyVal) (output : String) :
    Except PyError (Option PyVal) :=
  match scanLines (pyLines output) with
  | ScanOutcome.scalar (Except.ok v) => Except.ok (some (mkOk v))
  | ScanOutcome.scalar (Except.error e) => Except.error e
  | ScanOutcome.jsonFrom first rest =>
    match jsonAccumLoop J first rest with
    | some v => Except.ok (some (normalizeJson v))
    | Option.none => Except.ok Option.none
  | ScanOutcome.nothingFound => Except.ok Option.none

/-- The mutable state of a `BrowserClient` instance: `restart_count`
(line 181) and `target_id` (assigned at line 357). -/
structure ClientState where
  restart_count : Nat
  target_id : PyVal

/-- `_parse_output` as a method: the state of the client is threaded
through.  The method body reads no mutable field and writes none, so the
state passes through unchanged — this is the faithful translation of
lines 192-259, which only touch `self.logger`. -/
def parseOutputM (st : ClientState) (J : String → Option PyVal) (output : String) :
    ClientState × Except PyError (Option PyVal) :=
  (st, parseOutput J output)

/-- The configuration dataclass `Config` (lines 33-64), with the
source's default values. -/
structure Config where
  page_load_timeout : Nat := 5
  scroll_max_attempts : Nat := 10
  scroll_no_new_threshold : Nat := 2
  scroll_max_consecutive_errors : Nat := 3
  scroll_early_stop_on_yesterday : Bool := true
  user_crawl_timeout : Nat := 120
  max_retries : Nat := 5
  browser_action_max_attempts : Nat := 2
  content_fetch_workers : Nat := 10
  user_crawl_workers : Nat := 5
  browser_max_restarts : Nat := 10
  browser_restart_backoff : Nat := 30

/-- The default `Config()` instance built by `CrawlHot.__init__`. -/
def defaultConfig : Config := Config.mk 5 10 2 3 true 120 5 2 10 5 10 30

/-- External subprocess invocations visible in a `BrowserClient` trace. -/
inductive SysCmd where
  | runAction : SysCmd
  | stop : SysCmd
  | start : SysCmd
  | statusCheck : SysCmd
deriving Repr, DecidableEq

/-- Environment of one `_restart_browser` cycle: whether each of the two
`_run_command` invocations raises, and what `check_status` reports after
the restart (its own exceptions are caught inside `check_status`). -/
structure RestartEnv where
  stopRaises : Bool := false
  startRaises : Bool := false
  statusOk : Bool := true

/-- `BrowserClient._restart_browser` (lines 297-326).  Input `count` is
`self.restart_count`; the result is the new count, the boolean return
value, and the subprocess commands actually issued.  When the lifetime
budget is exhausted the method returns `False` without issuing any
stop/start command; otherwise the count is incremented *before* the
attempt, so it grows even when the restart fails. -/
def restartBrowser (cfg : Config) (env : RestartEnv) (count : Nat) :
    Nat × Bool × List SysCmd :=
  if cfg.browser_max_restarts ≤ count then (count, false, [])
  else
    let count' := count + 1
    if env.stopRaises then (count', false, [SysCmd.stop])
    else if env.startRaises then (count', false, [SysCmd.stop, SysCmd.start])
    else (count', env.statusOk, [SysCmd.stop, SysCmd.start, SysCmd.statusCheck])

/-- Environment of one iteration of the `_execute_action` loop: either
the `try` block raises (`subprocess.TimeoutExpired`, a generic exception,
or the `ValueError` escaping `_parse_output` — all caught at lines
288-293), or the command completed with a tab-not-found flag
(line 273), a return-code-zero flag (line 282) and the value
`_parse_output` produced from its stdout. -/
inductive AttemptEnv where
  | raisedEx : AttemptEnv
  | normal : Bool → Bool → Option PyVal → AttemptEnv

/-- The loop body of `BrowserClient._execute_action` (lines 268-295),
recursing over the remaining attempts.  `attempt` is the 1-based loop
variable; `renv`/`runs` give the environment of each attempt.  Returns
the final `restart_count`, the method's return value and the trace of
subprocess commands. -/
def execLoop (cfg : Config) (renv : Nat → RestartEnv) (runs : Nat → AttemptEnv)
    (count : Nat) (attempt : Nat) :
    (remaining : Nat) → Nat × Option PyVal × List SysCmd
  | 0 => (count, Option.none, [])
  | remaining + 1 =>
    match runs attempt with
    | AttemptEnv.raisedEx => (count, Option.none, [SysCmd.runAction])
    | AttemptEnv.normal tabNotFound rcZero parsed =>
      if tabNotFound ∧ attempt < cfg.browser_action_max_attempts then
        let rb := restartBrowser cfg (renv attempt) count
        if rb.2.1 then
          let rest := execLoop cfg renv runs rb.1 (attempt + 1) remaining
          (rest.1, rest.2.1, SysCmd.runAction :: rb.2.2 ++ rest.2.2)
        else (rb.1, Option.none, SysCmd.runAction :: rb.2.2)
      else if rcZero then (count, parsed, [SysCmd.runAction])
      else (count, Option.none, [SysCmd.runAction])

/-- `BrowserClient._execute_action` (lines 266-295): run the loop for
`browser_action_max_attempts` attempts starting at attempt 1. -/
def executeAction (cfg : Config) (renv : Nat → RestartEnv) (runs : Nat → AttemptEnv)
    (count : Nat) : Nat × Option PyVal × List SysCmd :=
  execLoop cfg renv runs count 1 cfg.browser_action_max_attempts

/-- Environment of one `_execute_action` call inside a longer history. -/
structure CallEnv where
  renv : Nat → RestartEnv
  runs : Nat → AttemptEnv

/-- A whole execution history of one `BrowserClient` instance: the
`restart_count` threaded through a sequence of `_execute_action` calls. -/
def clientHistory (cfg : Config) : List CallEnv → Nat → Nat
  | [], count => count
  | c :: cs, count => clientHistory cfg cs (executeAction cfg c.renv c.runs count).1

/-- `BrowserClient.navigate` (lines 349-359), with the value returned by
`_execute_action` passed in (`none` = the action failed, `some es` = the
reply dict).  On success `self.target_id` is set to
`result.get("targetId")` — `PyVal.none` when the key is absent — and the
method returns `True` regardless; on failure the state is unchanged. -/
def navigate (st : ClientState) (execResult : Option (List (String × PyVal))) :
    ClientState × Bool :=
  match execResult with
  | some es => ({ st with target_id := pyGet es "targetId" }, true)
  | Option.none => (st, false)

/-- A control command issued to the external browser surface. -/
inductive BrowserCmd where
  | evaluateCmd : PyVal → String → BrowserCmd
deriving Repr

/-- `result_value.strip().startswith(('[', '\x7b'))` (lines 386, 391). -/
def startsBracket (s : String) : Bool :=
  match (pyStrip s).toList with
  | [] => false
  | c :: _ => c == '[' || c == openBrace

/-- The double-decoding tail of `BrowserClient.evaluate`
(lines 375-398): a list is returned as-is; a string that looks like JSON
is `json.loads`-parsed up to two levels (a failure of either parse is
caught and yields `None`); anything else is returned unchanged. -/
def evalPostProcess (J : String → Option PyVal) (v : PyVal) : PyVal :=
  match v with
  | PyVal.list xs => PyVal.list xs
  | PyVal.str s =>
    if startsBracket s then
      match J s with
      | Option.none => PyVal.none
      | some v1 =>
        match v1 with
        | PyVal.str s1 =>
          if startsBracket s1 then
            match J s1 with
            | Option.none => PyVal.none
            | some v2 => v2
          else PyVal.str s1
        | other => other
    else PyVal.str s
  | other => other

/-- `BrowserClient.evaluate` (lines 361-398), with the reply of
`_execute_action` passed in.  When `self.target_id` is falsy the method
returns `None` *before* building or issuing any command (lines 363-365);
otherwise the evaluate command is issued and its `"result"` entry is
post-processed.  The second component is the list of commands issued. -/
def evaluate (st : ClientState) (js : String) (J : String → Option PyVal)
    (execResult : Option (List (String × PyVal))) : PyVal × List BrowserCmd :=
  if ¬ pyTruthy st.target_id then (PyVal.none, [])
  else
    match execResult with
    | Option.none => (PyVal.none, [BrowserCmd.evaluateCmd st.target_id js])
    | some es =>
      (evalPostProcess J (pyGet es "result"), [BrowserCmd.evaluateCmd st.target_id js])

/-- Python `int(s)` on an arbitrary string: an optional single sign
followed by at least one digit; anything else raises `ValueError`
(modelled as `none`). -/
def pyIntStr (s : String) : Option Int :=
  match s.toList with
  | '-' :: rest =>
    if ¬ rest.isEmpty ∧ rest.all Char.isDigit then some (-(digitsToNat rest : Int))
    else Option.none
  | '+' :: rest =>
    if ¬ rest.isEmpty ∧ rest.all Char.isDigit then some (digitsToNat rest)
    else Option.none
  | cs =>
    if ¬ cs.isEmpty ∧ cs.all Char.isDigit then some (digitsToNat cs)
    else Option.none

/-- What one iteration of `_scroll_and_collect` receives from
`self.browser.evaluate(js_code)` (line 756): Python `None`, a string
whose `json.loads` raises `JSONDecodeError` (line 801), or a list of URL
strings (either returned directly or obtained by a successful
`json.loads`) — the extraction script always produces an array of
strings. -/
inductive EvalOutcome where
  | noneResult : EvalOutcome
  | parseError : EvalOutcome
  | urlList : List String → EvalOutcome

/-- Result of one iteration body of `_scroll_and_collect`: either the
loop halts at this iteration (a `break`, or an uncaught exception), or
it continues with updated `urls`, `seen_ids`, `no_new_count` and
`consecutive_errors`. -/
inductive StepRes where
  | halt : Except PyError (List String × Nat) → StepRes
  | next : List String → List String → Nat → Nat → StepRes

/-- One iteration body of `PostCrawler._scroll_and_collect`
(lines 751-822), without the trailing page-down/sleep (which does not
affect the collected result).  The second component of a halting result
counts the iterations executed.  Mirrors the source exactly: the
`consecutive_errors` reset at line 759 happens before the parse, so a
parse error leaves the counter at 1; the yesterday heuristic
(lines 784-800) is only reached in the no-new-URLs branch of the very
first iteration, compares the raw numeric id of the first collected URL
against `now_ms - 24h`, and `int(...)` of a non-numeric id would raise. -/
def scrollStep (cfg : Config) (nowMs : Int) (scrollNum : Nat)
    (urls seen : List String) (noNew consec : Nat) (ev : EvalOutcome) : StepRes :=
  let errCheck : List String → List String → Nat → Nat → StepRes :=
    fun urls' seen' noNew' consec' =>
      if cfg.scroll_max_consecutive_errors ≤ consec' then
        StepRes.halt (Except.ok (urls', scrollNum))
      else StepRes.next urls' seen' noNew' consec'
  match ev with
  | EvalOutcome.noneResult => errCheck urls seen noNew (consec + 1)
  | EvalOutcome.parseError => errCheck urls seen noNew 1
  | EvalOutcome.urlList us =>
    let newUrls := us.filter (fun u => ¬ seen.contains u)
    if ¬ newUrls.isEmpty then
      errCheck (urls ++ newUrls) (seen ++ newUrls) 0 0
    else
      let noNew' := noNew + 1
      if cfg.scroll_no_new_threshold ≤ noNew' then
        StepRes.halt (Except.ok (urls, scrollNum))
      else if cfg.scroll_early_stop_on_yesterday && scrollNum == 1 && !urls.isEmpty then
        let firstUrl := urls.headD ""
        let tweetId := (firstUrl.splitOn "/status/").getLastD ""
        if tweetId ≠ "" then
          match pyIntStr tweetId with
          | Option.none => StepRes.halt (Except.error PyError.valueError)
          | some ts =>
            if ts < nowMs - 86400000 then StepRes.halt (Except.ok (urls, scrollNum))
            else errCheck urls seen noNew' 0
        else errCheck urls seen noNew' 0
      else errCheck urls seen noNew' 0

/-- The `for scroll_num in range(1, scroll_max_attempts + 1)` loop of
`_scroll_and_collect`, recursing on the remaining iteration count. -/
def scrollLoop (cfg : Config) (evals : Nat → EvalOutcome) (nowMs : Int)
    (scrollNum : Nat) (urls seen : List String) (noNew consec : Nat) :
    (remaining : Nat) → Except PyError (List String × Nat)
  | 0 => Except.ok (urls, scrollNum - 1)
  | remaining + 1 =>
    match scrollStep cfg nowMs scrollNum urls seen noNew consec (evals scrollNum) with
    | StepRes.halt res => res
    | StepRes.next urls' seen' noNew' consec' =>
      scrollLoop cfg evals nowMs (scrollNum + 1) urls' seen' noNew' consec' remaining

/-- `PostCrawler._scroll_and_collect` (lines 743-825): run the scroll
loop from iteration 1 with empty accumulators.  `evals` gives the value
the extraction script evaluates to at each iteration; `nowMs` is
`time.time() * 1000`.  Returns the collected URLs and the number of
iterations executed, or the uncaught exception. -/
def scrollAndCollect (cfg : Config) (evals : Nat → EvalOutcome) (nowMs : Int) :
    Except PyError (List String × Nat) :=
  scrollLoop cfg evals nowMs 1 [] [] 0 0 cfg.scroll_max_attempts

/-- Outcome of one `crawler.crawl_user(username)` call as seen by the
retry loop (line 1112): it returns a URL list, raises
`NoPostsFoundError`, or raises some other exception. -/
inductive AttemptOutcome where
  | success : List String → AttemptOutcome
  | noPosts : AttemptOutcome
  | failure : AttemptOutcome

/-- `PostCrawler.crawl_user` (lines 719-741): an unavailable browser or
failed navigation raises a generic exception; an exception escaping
`_scroll_and_collect` propagates; an empty URL list raises
`NoPostsFoundError`; otherwise the URLs are returned. -/
def crawlUser (browserOk navOk : Bool)
    (scrollRes : Except PyError (List String × Nat)) : AttemptOutcome :=
  if ¬ browserOk then AttemptOutcome.failure
  else if ¬ navOk then AttemptOutcome.failure
  else
    match scrollRes with
    | Except.error _ => AttemptOutcome.failure
    | Except.ok (urls, _) =>
      if urls.isEmpty then AttemptOutcome.noPosts else AttemptOutcome.success urls

/-- Events of one `CrawlHot._retry_crawl_user` run: an attempt starting
(line 1110), the info log of the benign no-posts outcome (line 1114),
the error log of a failed attempt (line 1117), and the randomized
backoff sleep (line 1122). -/
inductive CrawlEvent where
  | attempt : Nat → CrawlEvent
  | logInfoNoPosts : CrawlEvent
  | logError : CrawlEvent
  | wait : ℚ → CrawlEvent
deriving Repr, DecidableEq

/-- The backoff sleep of `_retry_crawl_user` (line 1120):
`wait_time = random.uniform(1, 3) * attempt`, with `rand n` the random
draw before the backoff of attempt `n`. -/
def backoff (rand : Nat → ℚ) (attempt : Nat) : ℚ := rand attempt * (attempt : ℚ)

/-- The `for attempt in range(1, max_retries + 1)` loop of
`CrawlHot._retry_crawl_user` (lines 1106-1125).  `outcomes n` is what
attempt `n`'s `crawl_user` does, `durs n` its wall-clock duration in
seconds, and `rand n` the value `random.uniform(1, 3)` drawn before the
backoff of attempt `n` (so the sleep is `backoff rand n`, line 1120).
Returns the result, the event trace, and the elapsed time (attempt
durations plus backoff sleeps). -/
def retryLoop (outcomes : Nat → AttemptOutcome) (durs : Nat → ℚ) (rand : Nat → ℚ)
    (maxR : Nat) : (attempt : Nat) → (remaining : Nat) → List String × List CrawlEvent × ℚ
  | _, 0 => ([], [], 0)
  | attempt, remaining + 1 =>
    let d := durs attempt
    match outcomes attempt with
    | AttemptOutcome.success urls => (urls, [CrawlEvent.attempt attempt], d)
    | AttemptOutcome.noPosts =>
      ([], [CrawlEvent.attempt attempt, CrawlEvent.logInfoNoPosts], d)
    | AttemptOutcome.failure =>
      if attempt < maxR then
        let w := backoff rand attempt
        let (res, evs, t) := retryLoop outcomes durs rand maxR (attempt + 1) remaining
        (res, CrawlEvent.attempt attempt :: CrawlEvent.logError :: CrawlEvent.wait w :: evs,
          d + w + t)
      else ([], [CrawlEvent.attempt attempt, CrawlEvent.logError], d)

/-- `CrawlHot._retry_crawl_user` (lines 1106-1125): run the retry loop
from attempt 1 with `max_retries` iterations available. -/
def retryCrawlUser (cfg : Config) (outcomes : Nat → AttemptOutcome)
    (durs : Nat → ℚ) (rand : Nat → ℚ) : List String × List CrawlEvent × ℚ :=
  retryLoop outcomes durs rand cfg.max_retries 1 cfg.max_retries

/-- The exception recorded by `CrawlHot._retry_with_timeout`.  Only the
timer handler (line 1077) ever stores one: `_retry_crawl_user` catches
every exception of the worker itself, so `exception[0]` can only hold a
`CrawlTimeoutError`. -/
inductive SupError where
  | crawlTimeout : SupError
deriving Repr, DecidableEq

/-- `CrawlHot.crawl_single_user` = `_retry_with_timeout` applied to one
`_retry_crawl_user` run (lines 1061-1104).  The timer fires at
`user_crawl_timeout` seconds of wall-clock time; the worker thread is
never killed, so the whole retry loop runs to completion, but if its
total elapsed time exceeds the timeout the stored `CrawlTimeoutError`
makes the method discard the result and return `[]`.  The second
component is the exception recorded at line 1088, if any. -/
def crawlSingleUser (cfg : Config) (outcomes : Nat → AttemptOutcome)
    (durs : Nat → ℚ) (rand : Nat → ℚ) : List String × Option SupError :=
  if (cfg.user_crawl_timeout : ℚ) < (retryCrawlUser cfg outcomes durs rand).2.2 then
    ([], some SupError.crawlTimeout)
  else ((retryCrawlUser cfg outcomes durs rand).1, Option.none)

/-- Modelled from the spec claim C3's words (not from the source): a
*per-attempt* wall-clock budget under which an attempt that exceeds the
timeout is counted as one ordinary attempt failure, after which the
retry loop keeps retrying up to the maximum of `max_retries` attempts. -/
def claimTimeoutOutcomes (timeout : ℚ) (outcomes : Nat → AttemptOutcome)
    (durs : Nat → ℚ) : Nat → AttemptOutcome :=
  fun i => if timeout < durs i then AttemptOutcome.failure else outcomes i

/-- Modelled from the spec claim C3's words (not from the source): the
supervisor behaviour C3 describes — each timed-out attempt becomes a
failed attempt and further retries follow. -/
def claimCrawlSingleUser (cfg : Config) (outcomes : Nat → AttemptOutcome)
    (durs : Nat → ℚ) (rand : Nat → ℚ) : List String :=
  (retryLoop (claimTimeoutOutcomes (cfg.user_crawl_timeout : ℚ) outcomes durs)
    durs rand cfg.max_retries 1 cfg.max_retries).1

/-- One line appended to the open TXT result file by
`ResultFileManager.append_user_results` (lines 924-932). -/
structure TxtRecord where
  user : String
  urls : List String
  current : Nat
  total : Nat
deriving Repr, DecidableEq

/-- Writes to the incremental result file during `crawl_all_users`. -/
inductive FileEvent where
  | record : TxtRecord → FileEvent
  | finalizeTxt : Nat → FileEvent
deriving Repr, DecidableEq

/-- How `crawl_all_users` turns one completed future into a URL list
(lines 1156-1172): a normal result is used as-is, a raised exception
yields the empty list. -/
def futureUrls : Except Unit (List String) → List String
  | Except.ok u => u
  | Except.error _ => []

/-- The `as_completed` loop of `CrawlHot.crawl_all_users`
(lines 1152-1172): each completed profile, in completion order, is
appended to the result file with the running `completed_count` and the
total, whether its future returned normally or raised. -/
def processCompletions (total : Nat) :
    List (String × Except Unit (List String)) → Nat → List FileEvent
  | [], _ => []
  | (user, res) :: rest, count =>
    FileEvent.record ⟨user, futureUrls res, count + 1, total⟩ ::
      processCompletions total rest (count + 1)

/-- The file-event trace of `CrawlHot.crawl_all_users`
(lines 1127-1184): every completion appended incrementally, then the
totals footer written by `finalize_txt` (lines 934-939). -/
def crawlAllUsersEvents (completions : List (String × Except Unit (List String))) :
    List FileEvent :=
  processCompletions completions.length completions 0 ++
    [FileEvent.finalizeTxt ((completions.map (fun c => (futureUrls c.2).length)).sum)]

/-- Python `\w` on ASCII: letters, digits and underscore. -/
def isWordChar (c : Char) : Bool := c.isAlphanum || c == '_'

/-- Match `\w+<statusSeg>(\d+)` at the start of `s`, returning the
captured digits.  Since `/` is not a word character, the greedy `\w+`
has a unique viable extent (the maximal word run), so no backtracking is
needed. -/
def matchTail (statusSeg : List Char) (s : List Char) : Option (List Char) :=
  let wordRun := s.takeWhile isWordChar
  let rest := s.dropWhile isWordChar
  if wordRun.isEmpty then Option.none
  else if statusSeg.isPrefixOf rest then
    let digits := (rest.drop statusSeg.length).takeWhile Char.isDigit
    if digits.isEmpty then Option.none else some digits
  else Option.none

/-- Match `(?:x\.com|twitter\.com)/\w+<statusSeg>(\d+)` anchored at the
start of `s`. -/
def matchAt (statusSeg : List Char) (s : List Char) : Option (List Char) :=
  if "x.com/".toList.isPrefixOf s then matchTail statusSeg (s.drop 6)
  else if "twitter.com/".toList.isPrefixOf s then matchTail statusSeg (s.drop 12)
  else Option.none

/-- `re.search` of the pattern above: try every start position from left
to right. -/
def searchPattern (statusSeg : List Char) : List Char → Option (List Char)
  | [] => Option.none
  | c :: rest =>
    match matchAt statusSeg (c :: rest) with
    | some ds => some ds
    | Option.none => searchPattern statusSeg rest

/-- `TwitterApiClient._extract_tweet_id` (lines 481-492): the
`/status/` pattern is tried over the whole URL first, then the
`/statuses/` pattern. -/
def extractTweetId (url : String) : Option String :=
  match searchPattern "/status/".toList url.toList with
  | some ds => some (String.mk ds)
  | Option.none =>
    match searchPattern "/statuses/".toList url.toList with
    | some ds => some (String.mk ds)
    | Option.none => Option.none

/-- An HTTP request issued by `TwitterApiClient.fetch_post`. -/
inductive ApiCall where
  | fxtwitter : ApiCall
  | syndication : ApiCall
deriving Repr, DecidableEq

/-- The value `fetch_post` returns on success: the payload dict and the
source tag (lines 470 and 476). -/
structure FetchedPost where
  data : List (String × PyVal)
  source : String

/-- The test `data and data.get("tweet")` of line 468: the fxtwitter
payload carries its expected content marker. -/
def fxMarker : Option (List (String × PyVal)) → Bool
  | some es => pyTruthy (PyVal.dict es) && pyTruthy (pyGet es "tweet")
  | Option.none => false

/-- The test `data and data.get("text")` of line 474: the syndication
payload carries its expected content marker. -/
def synMarker : Option (List (String × PyVal)) → Bool
  | some es => pyTruthy (PyVal.dict es) && pyTruthy (pyGet es "text")
  | Option.none => false

/-- The syndication fallback of `fetch_post` (lines 473-479), reached
after the fxtwitter request: succeed when the response carries the
`"text"` marker. -/
def fetchSecond (synResp : Option (List (String × PyVal))) :
    Option FetchedPost × List ApiCall :=
  match synResp with
  | some es =>
    if synMarker (some es) then
      (some ⟨es, "syndication"⟩, [ApiCall.fxtwitter, ApiCall.syndication])
    else (Option.none, [ApiCall.fxtwitter, ApiCall.syndication])
  | Option.none => (Option.none, [ApiCall.fxtwitter, ApiCall.syndication])

/-- `TwitterApiClient.fetch_post` (lines 459-479).  `fxResp`/`synResp`
are the JSON documents the two HTTP endpoints would return (`none` for a
non-200 status or a request error).  If no tweet id can be extracted
from the URL the method returns `None` with no request issued; otherwise
fxtwitter is tried first and wins when its payload carries the
`"tweet"` marker, else syndication is tried.  The second component is
the trace of HTTP requests. -/
def fetchPost (url : String) (fxResp synResp : Option (List (String × PyVal))) :
    Option FetchedPost × List ApiCall :=
  match extractTweetId url with
  | Option.none => (Option.none, [])
  | some _ =>
    match fxResp with
    | some es =>
      if fxMarker (some es) then
        (some ⟨es, "fxtwitter"⟩, [ApiCall.fxtwitter])
      else fetchSecond synResp
    | Option.none => fetchSecond synResp

/-- The placeholder body line written at submission time
(`save_markdown`, line 972). -/
def placeholderLine : String := "> 正在获取内容...\n\n"

/-- The placeholder section header (line 971). -/
def postHeaderLine (i : Nat) : String := "\n### 帖子 " ++ toString i ++ "\n\n"

/-- The placeholder URL line (line 973). -/
def urlLine (url : String) : String := "- URL: " ++ url ++ "\n\n"

/-- The placeholder separator (line 974). -/
def sepLine : String := "---\n\n"

/-- The per-post bookkeeping dict built at line 967. -/
structure PostInfo where
  user : String
  url : String
  index : Nat
  total : Nat
  section_start : Nat
deriving Repr, DecidableEq

/-- The inner `for i, url in enumerate(urls, 1)` loop of
`save_markdown` (lines 965-975): record `section_start = len(content)`
for each post, then append the four placeholder elements. -/
def addPosts (user : String) (total : Nat) :
    Nat → List String → List String × List PostInfo → List String × List PostInfo
  | _, [], acc => acc
  | i, url :: rest, (content, infos) =>
    let info : PostInfo := ⟨user, url, i, total, content.length⟩
    addPosts user total (i + 1) rest
      (content ++ [postHeaderLine i, placeholderLine, urlLine url, sepLine],
        infos ++ [info])

/-- The per-user section header (line 963). -/
def userHeaderLines (user : String) (n : Nat) : List String :=
  ["\n## @" ++ user ++ " 的帖子 (" ++ toString n ++ " 条)\n", "---\n"]

/-- The outer `for user, urls in results.items()` loop of
`save_markdown` (lines 959-975); users with no URLs are skipped. -/
def buildSections :
    List (String × List String) → List String × List PostInfo →
    List String × List PostInfo
  | [], acc => acc
  | (user, urls) :: rest, (content, infos) =>
    if urls.isEmpty then buildSections rest (content, infos)
    else
      buildSections rest
        (addPosts user urls.length 1 urls
          (content ++ userHeaderLines user urls.length, infos))

/-- The report header (lines 947-953). -/
def mdHeaderLines (ts : String) (nUsers nPosts : Nat) : List String :=
  ["# X 帖子抓取结果",
   "\n**抓取时间:** " ++ ts,
   "**总用户数:** " ++ toString nUsers,
   "**总帖子数:** " ++ toString nPosts,
   "\n---\n"]

/-- The element written over `content[section_start]` when a fetch
succeeds (line 1003). -/
def successSection (md : String) : String := md ++ "\n\n---\n\n"

/-- The element written over `content[section_start]` when both sources
fail (lines 1006-1011). -/
def unavailableSection (i : Nat) (url : String) : String :=
  "\n### 帖子 " ++ toString i ++ "\n\n" ++ "> ⚠️ 无法获取帖子内容\n\n" ++
    "- URL: " ++ url ++ "\n\n" ++ "---\n\n"

/-- Handling of one completed fetch future (lines 996-1011): only the
single element at `info.section_start` is overwritten. -/
def applyOne (content : List String) (info : PostInfo) (md : Option String) :
    List String :=
  content.set info.section_start
    (match md with
     | some m => successSection m
     | Option.none => unavailableSection info.index info.url)

/-- The `as_completed` loop of `save_markdown` (lines 996-1011) applied
to a list of completed fetches in completion order. -/
def applyCompletions (content : List String) :
    List (PostInfo × Option String) → List String
  | [] => content
  | (info, md) :: rest => applyCompletions (applyOne content info md) rest

/-- `ResultFileManager.save_markdown` (lines 941-1020) up to the final
file write: build the header and placeholder sections, then apply the
completed fetches (each giving rendered markdown or `none`) in the given
completion order.  The result is the list of content elements joined
into the file at line 1017. -/
def saveMarkdownContent (ts : String) (results : List (String × List String))
    (completionOf : PostInfo → Option String)
    (completionOrder : List PostInfo) : List String :=
  let nPosts := (results.map (fun r => r.2.length)).sum
  let built := buildSections results (mdHeaderLines ts results.length nPosts, [])
  applyCompletions built.1 (completionOrder.map (fun i => (i, completionOf i)))

/-!  Theorems.  -/

/-- C9: `_parse_output` is a pure function of the raw text: its typed
result is independent of the client's mutable state, the state is left
unchanged, and applying the parser a second time to the same raw output
(threading the state through) yields the same typed result. -/
theorem parse_output_pure (J : String → Option PyVal) (output : String)
    (st st' : ClientState) :
    (parseOutputM st J output).2 = (parseOutputM st' J output).2 ∧
    (parseOutputM st J output).1 = st ∧
    (parseOutputM (parseOutputM st J output).1 J output).2 =
      (parseOutputM st J output).2 :=
  ⟨rfl, rfl, rfl⟩

/-- C10: when `navigate` gets a parsed reply without a `targetId` field
it still returns `True`, leaves the stored session handle as `None`,
and every subsequent `evaluate` then returns `None` without issuing any
command to the control surface. -/
theorem navigate_without_target_id (st : ClientState) (es : List (String × PyVal))
    (js : String) (J : String → Option PyVal)
    (execResult : Option (List (String × PyVal)))
    (h : pyGet es "targetId" = PyVal.none) :
    (navigate st (some es)).2 = true ∧
    (navigate st (some es)).1.target_id = PyVal.none ∧
    evaluate (navigate st (some es)).1 js J execResult = (PyVal.none, []) := by
  refine ⟨rfl, by simp [navigate, h], ?_⟩
  simp [navigate, evaluate, h, pyTruthy]

/-- Witness for `navigate_without_target_id` at a concrete reply dict
with no `targetId` entry. -/
theorem navigate_without_target_id_witness :
    (navigate ⟨0, PyVal.none⟩ (some [("ok", PyVal.bool true)])).2 = true ∧
    (navigate ⟨0, PyVal.none⟩ (some [("ok", PyVal.bool true)])).1.target_id =
      PyVal.none ∧
    evaluate (navigate ⟨0, PyVal.none⟩ (some [("ok", PyVal.bool true)])).1
      "document.title" (fun _ => Option.none)
      (some [("result", PyVal.str "t")]) = (PyVal.none, []) :=
  navigate_without_target_id ⟨0, PyVal.none⟩ [("ok", PyVal.bool true)]
    "document.title" (fun _ => Option.none) (some [("result", PyVal.str "t")]) rfl

/-- C5 (failing input evaluated): for a single profile with one post
whose fetch succeeds, the finished document still contains the
placeholder body line `"> 正在获取内容..."` — the completion handler
overwrites only `content[section_start]` (the section header element),
leaving the placeholder, URL and separator elements in place — while the
fetched markdown section is also present. -/
theorem markdown_placeholder_survives :
    placeholderLine ∈
      saveMarkdownContent "2026-10-12 00:00:00"
        [("alice", ["https://x.com/alice/status/10"])]
        (fun _ => some "# fetched post")
        (buildSections [("alice", ["https://x.com/alice/status/10"])]
          (mdHeaderLines "2026-10-12 00:00:00" 1 1, [])).2 ∧
    successSection "# fetched post" ∈
      saveMarkdownContent "2026-10-12 00:00:00"
        [("alice", ["https://x.com/alice/status/10"])]
        (fun _ => some "# fetched post")
        (buildSections [("alice", ["https://x.com/alice/status/10"])]
          (mdHeaderLines "2026-10-12 00:00:00" 1 1, [])).2 := by
  exact ⟨by decide, by decide⟩

/-- C8 (counterexample): on the raw output `"--5"` the parser raises
`ValueError` instead of returning a value: `lstrip('-')` removes both
minus signs, so `isdigit()` accepts the line, but `int("--5")`
raises. -/
theorem parse_output_raises_on_double_minus :
    parseOutput (fun _ => Option.none) "--5" = Except.error PyError.valueError := rfl

/-- C3 (amended): the wall-clock timeout of `crawl_single_user` covers
the whole retry sequence: when the retry loop's total elapsed time
exceeds `user_crawl_timeout`, the supervisor records a
`CrawlTimeoutError` (the only exception class ever recorded there,
distinct from logic failures, which stay inside the retry loop) and
returns `[]` with no further effective retry; otherwise the retry loop's
result is returned with no exception recorded. -/
theorem crawl_timeout_aborts_whole_retry (cfg : Config)
    (outcomes : Nat → AttemptOutcome) (durs rand : Nat → ℚ) :
    ((cfg.user_crawl_timeout : ℚ) < (retryCrawlUser cfg outcomes durs rand).2.2 →
      crawlSingleUser cfg outcomes durs rand = ([], some SupError.crawlTimeout)) ∧
    ((retryCrawlUser cfg outcomes durs rand).2.2 ≤ (cfg.user_crawl_timeout : ℚ) →
      crawlSingleUser cfg outcomes durs rand =
        ((retryCrawlUser cfg outcomes durs rand).1, Option.none)) := by
  refine ⟨fun h => ?_, fun h => ?_⟩
  · unfold crawlSingleUser
    rw [if_pos h]
  · unfold crawlSingleUser
    rw [if_neg (not_lt.mpr h)]

/-- Witness for `crawl_timeout_aborts_whole_retry`: one failing attempt
of 130 s already exceeds the 120 s budget, so the supervisor returns
`[]` with a recorded `CrawlTimeoutError`. -/
theorem crawl_timeout_aborts_whole_retry_witness :
    crawlSingleUser defaultConfig (fun _ => AttemptOutcome.failure)
      (fun _ => (130 : ℚ)) (fun _ => 2) = ([], some SupError.crawlTimeout) :=
  (crawl_timeout_aborts_whole_retry defaultConfig (fun _ => AttemptOutcome.failure)
    (fun _ => (130 : ℚ)) (fun _ => 2)).1
    (by norm_num [retryCrawlUser, retryLoop, backoff, defaultConfig])

/-- C3 (counterexample to the claim as stated): with attempt 1 failing
after 130 s and attempt 2 succeeding in 5 s, the claim's per-attempt
reading (a timed-out attempt counts as one attempt failure and is
retried) predicts the attempt-2 URLs, but the code returns `[]` with a
recorded `CrawlTimeoutError`: the timer fired at 120 s wall-clock time
discards the whole run, so a timed-out profile is never effectively
retried. -/
theorem crawl_timeout_counterexample :
    crawlSingleUser defaultConfig
      (fun n => if n = 1 then AttemptOutcome.failure
        else AttemptOutcome.success ["https://x.com/u/status/9"])
      (fun n => if n = 1 then (130 : ℚ) else 5) (fun _ => 2) =
      ([], some SupError.crawlTimeout) ∧
    claimCrawlSingleUser defaultConfig
      (fun n => if n = 1 then AttemptOutcome.failure
        else AttemptOutcome.success ["https://x.com/u/status/9"])
      (fun n => if n = 1 then (130 : ℚ) else 5) (fun _ => 2) =
      ["https://x.com/u/status/9"] ∧
    (["https://x.com/u/status/9"] : List String) ≠ [] := by
  refine ⟨?_, ?_, by decide⟩
  · norm_num [crawlSingleUser, retryCrawlUser, retryLoop, backoff, defaultConfig]
  · norm_num [claimCrawlSingleUser, claimTimeoutOutcomes, retryLoop, backoff,
      defaultConfig]

/-- C1 (failing input evaluated): a run of `_scroll_and_collect` on
which the claim says the loop must stop after the very first iteration:
iteration 1 discovers one URL whose numeric id (`1`) is far older than
`now − 24h` even under the code's own raw-id comparison.  Instead the
code keeps scrolling — the yesterday heuristic sits in the
no-new-URLs branch, which on iteration 1 implies the accumulator is
empty — collects a second old URL on iteration 2, and only stops after
two empty iterations (4 iterations in all).  -/
theorem early_stop_heuristic_never_fires_run :
    scrollAndCollect defaultConfig
      (fun n => if n = 1 then EvalOutcome.urlList ["https://x.com/u/status/1"]
        else if n = 2 then
          EvalOutcome.urlList ["https://x.com/u/status/1", "https://x.com/u/status/2"]
        else EvalOutcome.urlList []) 2000000000000 =
      Except.ok (["https://x.com/u/status/1", "https://x.com/u/status/2"], 4) ∧
    (1 : Int) < 2000000000000 - 86400000 ∧
    (["https://x.com/u/status/1", "https://x.com/u/status/2"] : List String) ≠
      ["https://x.com/u/status/1"] := by
  refine ⟨rfl, by decide, by decide⟩

/-- Helper: the scroll-iteration body never consults the
`scroll_early_stop_on_yesterday` flag: the flag is read only under
`scroll_num == 1 and urls`, and whenever `scroll_num = 1` the
accumulator is still empty in the only branch that reads it. -/
theorem scrollStep_flag_irrelevant (cfg cfg' : Config)
    (hthr : cfg.scroll_no_new_threshold = cfg'.scroll_no_new_threshold)
    (herr : cfg.scroll_max_consecutive_errors = cfg'.scroll_max_consecutive_errors)
    (nowMs : Int) (scrollNum : Nat) (urls seen : List String) (noNew consec : Nat)
    (ev : EvalOutcome) (h : scrollNum = 1 → urls = []) :
    scrollStep cfg nowMs scrollNum urls seen noNew consec ev =
      scrollStep cfg' nowMs scrollNum urls seen noNew consec ev := by
  have hcond : ∀ b : Bool, (b && scrollNum == 1 && !urls.isEmpty) = false := by
    intro b
    by_cases h1 : scrollNum = 1
    · have hu : urls = [] := h h1
      subst hu
      simp
    · simp [h1]
  unfold scrollStep
  cases ev with
  | noneResult => dsimp only; rw [herr]
  | parseError => dsimp only; rw [herr]
  | urlList us =>
    dsimp only
    rw [hthr, herr, hcond cfg.scroll_early_stop_on_yesterday,
      hcond cfg'.scroll_early_stop_on_yesterday]

/-- Helper: the whole scroll loop is independent of the yesterday flag
once started at iteration 1 with an empty accumulator. -/
theorem scrollLoop_flag_irrelevant (cfg cfg' : Config)
    (hthr : cfg.scroll_no_new_threshold = cfg'.scroll_no_new_threshold)
    (herr : cfg.scroll_max_consecutive_errors = cfg'.scroll_max_consecutive_errors)
    (evals : Nat → EvalOutcome) (nowMs : Int) :
    ∀ (remaining scrollNum : Nat) (urls seen : List String) (noNew consec : Nat),
      1 ≤ scrollNum → (scrollNum = 1 → urls = []) →
      scrollLoop cfg evals nowMs scrollNum urls seen noNew consec remaining =
        scrollLoop cfg' evals nowMs scrollNum urls seen noNew consec remaining := by
  intro remaining
  induction remaining with
  | zero => intros; rfl
  | succ r ih =>
    intro scrollNum urls seen noNew consec h1 h2
    unfold scrollLoop
    rw [scrollStep_flag_irrelevant cfg cfg' hthr herr nowMs scrollNum urls seen
      noNew consec (evals scrollNum) h2]
    cases scrollStep cfg' nowMs scrollNum urls seen noNew consec (evals scrollNum) with
    | halt res => rfl
    | next u s nn c =>
      exact ih (scrollNum + 1) u s nn c (by omega) (fun hh => absurd hh (by omega))

/-- The yesterday early-stop heuristic of `_scroll_and_collect` is dead
code: the collected result is the same whatever the value of
`scroll_early_stop_on_yesterday`. -/
theorem scrollAndCollect_flag_irrelevant (cfg : Config) (b : Bool)
    (evals : Nat → EvalOutcome) (nowMs : Int) :
    scrollAndCollect cfg evals nowMs =
      scrollAndCollect { cfg with scroll_early_stop_on_yesterday := b } evals nowMs := by
  unfold scrollAndCollect
  exact scrollLoop_flag_irrelevant cfg { cfg with scroll_early_stop_on_yesterday := b }
    rfl rfl evals nowMs cfg.scroll_max_attempts 1 [] [] 0 0 (by omega) (fun _ => rfl)

/-- Helper: one unfolding of the retry loop when the current attempt
raises `NoPostsFoundError`: the loop returns `[]` at once, logging at
info level, with no backoff and no further attempt. -/
theorem retryLoop_noPosts_first (outcomes : Nat → AttemptOutcome) (durs rand : Nat → ℚ)
    (maxR attempt remaining : Nat) (h : outcomes attempt = AttemptOutcome.noPosts) :
    retryLoop outcomes durs rand maxR attempt (remaining + 1) =
      ([], [CrawlEvent.attempt attempt, CrawlEvent.logInfoNoPosts], durs attempt) := by
  simp [retryLoop, h]

/-- C4: a collection that completes normally with zero posts raises
`NoPostsFoundError`; the retry loop turns the first such attempt into a
terminal `[]` after exactly one attempt, logged at info level with no
error log and no backoff; by contrast a persistently failing profile is
attempted exactly 5 times, each failure logged as an error, with a
randomized backoff `rand n * n` between consecutive attempts. -/
theorem noposts_terminal_success (outcomes : Nat → AttemptOutcome)
    (durs rand : Nat → ℚ) (n : Nat) (h1 : outcomes 1 = AttemptOutcome.noPosts) :
    crawlUser true true (Except.ok ([], n)) = AttemptOutcome.noPosts ∧
    retryCrawlUser defaultConfig outcomes durs rand =
      ([], [CrawlEvent.attempt 1, CrawlEvent.logInfoNoPosts], durs 1) ∧
    (durs 1 ≤ (defaultConfig.user_crawl_timeout : ℚ) →
      crawlSingleUser defaultConfig outcomes durs rand = ([], Option.none)) ∧
    (retryCrawlUser defaultConfig (fun _ => AttemptOutcome.failure) durs rand).1 = [] ∧
    (retryCrawlUser defaultConfig (fun _ => AttemptOutcome.failure) durs rand).2.1 =
      [CrawlEvent.attempt 1, CrawlEvent.logError, CrawlEvent.wait (backoff rand 1),
       CrawlEvent.attempt 2, CrawlEvent.logError, CrawlEvent.wait (backoff rand 2),
       CrawlEvent.attempt 3, CrawlEvent.logError, CrawlEvent.wait (backoff rand 3),
       CrawlEvent.attempt 4, CrawlEvent.logError, CrawlEvent.wait (backoff rand 4),
       CrawlEvent.attempt 5, CrawlEvent.logError] := by
  have hr : retryCrawlUser defaultConfig outcomes durs rand =
      ([], [CrawlEvent.attempt 1, CrawlEvent.logInfoNoPosts], durs 1) :=
    retryLoop_noPosts_first outcomes durs rand 5 1 4 h1
  refine ⟨rfl, hr, fun ht => ?_, rfl, rfl⟩
  unfold crawlSingleUser
  rw [hr]
  exact if_neg (not_lt.mpr ht)

/-- Witness for `noposts_terminal_success` with a concrete no-posts
first attempt. -/
theorem noposts_terminal_success_witness :
    crawlUser true true (Except.ok ([], 1)) = AttemptOutcome.noPosts ∧
    retryCrawlUser defaultConfig (fun _ => AttemptOutcome.noPosts) (fun _ => 3)
      (fun _ => 2) = ([], [CrawlEvent.attempt 1, CrawlEvent.logInfoNoPosts], 3) ∧
    crawlSingleUser defaultConfig (fun _ => AttemptOutcome.noPosts) (fun _ => 3)
      (fun _ => 2) = ([], Option.none) := by
  have h := noposts_terminal_success (fun _ => AttemptOutcome.noPosts) (fun _ => 3)
    (fun _ => 2) 1 rfl
  exact ⟨h.1, h.2.1, h.2.2.1 (by norm_num [defaultConfig])⟩

/-- Helper: on a line that passes the digit test but is not a bad-int
line, `int(...)` does not raise. -/
theorem pyIntLine_not_error (t : String) (hb : isBadIntLine t = false)
    (hd : isDigitLine t = true) (e : PyError) : pyIntLine t ≠ Except.error e := by
  intro hc
  unfold pyIntLine at hc
  dsimp only at hc
  split_ifs at hc with h0 h1
  have : isBadIntLine t = true := by
    unfold isBadIntLine
    rw [hd, Bool.true_and, decide_eq_true_eq]
    omega
  rw [this] at hb
  exact Bool.noConfusion hb

/-- Helper: when no scanned line is a bad-int line, the scanning loop
never produces a raising scalar. -/
theorem scanLines_no_scalar_error :
    ∀ (lines : List String), (∀ l ∈ lines, isBadIntLine (pyStrip l) = false) →
      ∀ e, scanLines lines ≠ ScanOutcome.scalar (Except.error e) := by
  intro lines
  induction lines with
  | nil => intro _ e hc; simp [scanLines] at hc
  | cons l ls ih =>
    intro h e hc
    have hl : isBadIntLine (pyStrip l) = false := h l (by simp)
    have hls : ∀ x ∈ ls, isBadIntLine (pyStrip x) = false :=
      fun x hx => h x (by simp [hx])
    unfold scanLines at hc
    dsimp only at hc
    split_ifs at hc with h1 h2 h3 h4 h5
    all_goals first
      | exact ih hls e hc
      | exact pyIntLine_not_error (pyStrip l) hl h5 e (ScanOutcome.scalar.inj hc)
      | simp at hc

/-- C8 (amended): for every raw output string none of whose stripped
lines is a bad-int line (two or more `-` signs followed only by digits,
as in `"--5"`, on which `int(...)` raises `ValueError`), the parser
terminates and returns a value without raising: decorative lines are
skipped, bare scalars are recognized, JSON is accumulated from the first
JSON-start line, and when no valid payload exists it returns `None`
rather than crashing. -/
theorem parse_output_total_unless_bad_int (J : String → Option PyVal)
    (output : String)
    (h : ∀ l ∈ pyLines output, isBadIntLine (pyStrip l) = false) :
    ∃ v, parseOutput J output = Except.ok v := by
  unfold parseOutput
  cases hs : scanLines (pyLines output) with
  | scalar r =>
    cases r with
    | ok v => exact ⟨some (mkOk v), rfl⟩
    | error e => exact absurd hs (scanLines_no_scalar_error (pyLines output) h e)
  | jsonFrom first rest =>
    cases hj : jsonAccumLoop J first rest with
    | none => exact ⟨Option.none, by dsimp only; rw [hj]⟩
    | some v => exact ⟨some (normalizeJson v), by dsimp only; rw [hj]⟩
  | nothingFound => exact ⟨Option.none, rfl⟩

/-- Witness for `parse_output_total_unless_bad_int`: an output with no
payload at all yields a value (in fact `None`), not an exception. -/
theorem parse_output_total_unless_bad_int_witness :
    ∃ v, parseOutput (fun _ => Option.none) "junk\nnothing here" = Except.ok v :=
  parse_output_total_unless_bad_int (fun _ => Option.none) "junk\nnothing here"
    (by decide)

/-- Helper: `_restart_browser` increments the count exactly when the
budget is not yet exhausted. -/
theorem restartBrowser_count (cfg : Config) (env : RestartEnv) (count : Nat) :
    (restartBrowser cfg env count).1 =
      if cfg.browser_max_restarts ≤ count then count else count + 1 := by
  unfold restartBrowser
  split_ifs <;> rfl

/-- Helper: with the budget exhausted, `_restart_browser` returns
`False` at once, issuing no subprocess command. -/
theorem restartBrowser_exhausted (cfg : Config) (env : RestartEnv) (count : Nat)
    (h : cfg.browser_max_restarts ≤ count) :
    restartBrowser cfg env count = (count, false, []) := by
  unfold restartBrowser
  rw [if_pos h]

/-- Helper: the `_execute_action` loop preserves the restart budget
invariant `restart_count ≤ browser_max_restarts`. -/
theorem execLoop_count_le (cfg : Config) (renv : Nat → RestartEnv)
    (runs : Nat → AttemptEnv) :
    ∀ (remaining attempt count : Nat), count ≤ cfg.browser_max_restarts →
      (execLoop cfg renv runs count attempt remaining).1 ≤ cfg.browser_max_restarts := by
  intro remaining
  induction remaining with
  | zero => intro attempt count h; exact h
  | succ r ih =>
    intro attempt count h
    unfold execLoop
    cases runs attempt with
    | raisedEx => exact h
    | normal tab rc parsed =>
      dsimp only
      have hrb : (restartBrowser cfg (renv attempt) count).1 ≤ cfg.browser_max_restarts := by
        rw [restartBrowser_count]
        split_ifs with h2
        · exact h
        · omega
      split_ifs with hc hok
      · exact ih (attempt + 1) _ hrb
      · exact hrb
      · exact h
      · exact h

/-- Helper: in the final loop iteration (`attempt` not below
`browser_action_max_attempts`) no recovery is triggered, so the count is
unchanged. -/
theorem execLoop_no_restart_last (cfg : Config) (renv : Nat → RestartEnv)
    (runs : Nat → AttemptEnv) (count attempt : Nat)
    (h : ¬ attempt < cfg.browser_action_max_attempts) :
    (execLoop cfg renv runs count attempt 1).1 = count := by
  unfold execLoop
  cases runs attempt with
  | raisedEx => rfl
  | normal tab rc parsed =>
    dsimp only
    rw [if_neg (fun hc => h hc.2)]
    split_ifs <;> rfl

/-- Helper: the whole history of `_execute_action` calls keeps the
restart count within the budget. -/
theorem clientHistory_le (cfg : Config) :
    ∀ (calls : List CallEnv) (count : Nat), count ≤ cfg.browser_max_restarts →
      clientHistory cfg calls count ≤ cfg.browser_max_restarts := by
  intro calls
  induction calls with
  | nil => intro count h; exact h
  | cons c cs ih =>
    intro count h
    unfold clientHistory
    exact ih _ (execLoop_count_le cfg c.renv c.runs cfg.browser_action_max_attempts 1 count h)

/-- C2: over every execution history the number of browser restarts
never exceeds `browser_max_restarts` (the count starts at 0 and only
grows on a performed restart); once the budget is reached, a
`tab not found` failure no longer triggers any stop/start cycle — the
recovery attempt fails immediately and `_execute_action` reports the
command failed (`None`, trace = only the command run itself); and within
one failed command (with the source's `browser_action_max_attempts = 2`)
recovery is attempted at most once before the single retry, so one call
raises the count by at most 1. -/
theorem browser_restart_budget (cfg : Config) :
    (∀ calls : List CallEnv, clientHistory cfg calls 0 ≤ cfg.browser_max_restarts) ∧
    (∀ (renv : Nat → RestartEnv) (runs : Nat → AttemptEnv) (count : Nat)
        (rc : Bool) (parsed : Option PyVal),
      cfg.browser_max_restarts ≤ count →
      cfg.browser_action_max_attempts = 2 →
      runs 1 = AttemptEnv.normal true rc parsed →
      executeAction cfg renv runs count = (count, Option.none, [SysCmd.runAction])) ∧
    (cfg.browser_action_max_attempts = 2 →
      ∀ (renv : Nat → RestartEnv) (runs : Nat → AttemptEnv) (count : Nat),
        (executeAction cfg renv runs count).1 ≤ count + 1) := by
  refine ⟨fun calls => clientHistory_le cfg calls 0 (Nat.zero_le _), ?_, ?_⟩
  · intro renv runs count rc parsed hcount hatt h1
    unfold executeAction
    rw [hatt]
    unfold execLoop
    rw [h1]
    dsimp only
    rw [hatt, if_pos ⟨rfl, by omega⟩,
      restartBrowser_exhausted cfg (renv 1) count hcount]
    rfl
  · intro hatt renv runs count
    unfold executeAction
    rw [hatt]
    unfold execLoop
    cases runs 1 with
    | raisedEx => dsimp only; omega
    | normal tab rc parsed =>
      dsimp only
      have hrb : (restartBrowser cfg (renv 1) count).1 ≤ count + 1 := by
        rw [restartBrowser_count]
        split_ifs <;> omega
      split_ifs with hc hok
      · rw [execLoop_no_restart_last cfg renv runs _ 2 (by omega)]
        exact hrb
      · exact hrb
      · omega
      · omega

/-- Witness for `browser_restart_budget` at the source's default
configuration: a one-call history stays within the budget of 10; with
the budget already exhausted a session-loss command fails with no
stop/start; a fresh client performs at most one restart per call. -/
theorem browser_restart_budget_witness :
    clientHistory defaultConfig
      [⟨fun _ => ⟨false, false, true⟩, fun _ => AttemptEnv.normal true true Option.none⟩]
      0 ≤ 10 ∧
    executeAction defaultConfig (fun _ => ⟨false, false, true⟩)
      (fun _ => AttemptEnv.normal true true Option.none) 10 =
      (10, Option.none, [SysCmd.runAction]) ∧
    (executeAction defaultConfig (fun _ => ⟨false, false, true⟩)
      (fun _ => AttemptEnv.normal true true Option.none) 0).1 ≤ 1 := by
  refine ⟨?_, ?_, ?_⟩
  · exact (browser_restart_budget defaultConfig).1 _
  · exact (browser_restart_budget defaultConfig).2.1 _ _ 10 true Option.none
      (by decide) rfl rfl
  · exact (browser_restart_budget defaultConfig).2.2 rfl _ _ 0

/-- Helper: the completion loop writes exactly one record per completed
profile. -/
theorem processCompletions_length (total : Nat) :
    ∀ (comps : List (String × Except Unit (List String))) (count : Nat),
      (processCompletions total comps count).length = comps.length := by
  intro comps
  induction comps with
  | nil => intro count; rfl
  | cons hd tl ih =>
    intro count
    cases hd with
    | mk user res => simp [processCompletions, ih]

/-- Helper: the `k`-th record written by the completion loop belongs to
the `k`-th completed profile and carries the running counter. -/
theorem processCompletions_get (total : Nat) :
    ∀ (comps : List (String × Except Unit (List String))) (count k : Nat)
      (hk : k < comps.length),
      (processCompletions total comps count).get? k =
        some (FileEvent.record ⟨(comps.get ⟨k, hk⟩).1,
          futureUrls (comps.get ⟨k, hk⟩).2, count + k + 1, total⟩) := by
  intro comps
  induction comps with
  | nil => intro count k hk; exact absurd hk (by simp)
  | cons hd tl ih =>
    intro count k hk
    cases hd with
    | mk user res =>
      cases k with
      | zero => simp [processCompletions]
      | succ k' =>
        have hk' : k' < tl.length := by simpa using hk
        have harith : count + 1 + k' + 1 = count + (k' + 1) + 1 := by omega
        calc (processCompletions total ((user, res) :: tl) count).get? (k' + 1)
            = (processCompletions total tl (count + 1)).get? k' := by
              simp [processCompletions]
          _ = some (FileEvent.record ⟨(tl.get ⟨k', hk'⟩).1,
                futureUrls (tl.get ⟨k', hk'⟩).2, count + 1 + k' + 1, total⟩) :=
              ih (count + 1) k' hk'
          _ = some (FileEvent.record ⟨(((user, res) :: tl).get ⟨k' + 1, hk⟩).1,
                futureUrls (((user, res) :: tl).get ⟨k' + 1, hk⟩).2,
                count + (k' + 1) + 1, total⟩) := by
              rw [harith]
              simp

/-- C6: for every sequence of profile completions (successes or raised
failures), the scheduler appends exactly one record per profile, in
completion order, carrying that profile's URLs (the empty list when the
future raised) and the running `[completed/total]` counter; no failure
prevents the remaining profiles from being recorded, and the run always
finalizes with the totals footer as the last file event. -/
theorem scheduler_appends_every_profile
    (completions : List (String × Except Unit (List String))) :
    (crawlAllUsersEvents completions).length = completions.length + 1 ∧
    (∀ (k : Nat) (hk : k < completions.length),
      (crawlAllUsersEvents completions).get? k =
        some (FileEvent.record ⟨(completions.get ⟨k, hk⟩).1,
          futureUrls (completions.get ⟨k, hk⟩).2, k + 1, completions.length⟩)) ∧
    (∀ e, futureUrls (Except.error e) = []) ∧
    (crawlAllUsersEvents completions).getLast? =
      some (FileEvent.finalizeTxt
        ((completions.map (fun c => (futureUrls c.2).length)).sum)) := by
  refine ⟨?_, ?_, fun e => rfl, ?_⟩
  · unfold crawlAllUsersEvents
    rw [List.length_append, processCompletions_length]
    rfl
  · intro k hk
    unfold crawlAllUsersEvents
    rw [List.get?_append (by rw [processCompletions_length]; exact hk)]
    have h := processCompletions_get completions.length completions 0 k hk
    rw [h]
    simp
  · unfold crawlAllUsersEvents
    exact List.getLast?_concat _

/-- Witness for `scheduler_appends_every_profile`: two profiles, the
second of which fails, both recorded with counters and the footer
written last. -/
theorem scheduler_appends_every_profile_witness :
    (crawlAllUsersEvents [("a", Except.ok ["u1", "u2"]), ("b", Except.error ())]).length
      = 3 ∧
    (crawlAllUsersEvents [("a", Except.ok ["u1", "u2"]), ("b", Except.error ())]).get? 1
      = some (FileEvent.record ⟨"b", [], 2, 2⟩) ∧
    (crawlAllUsersEvents [("a", Except.ok ["u1", "u2"]), ("b", Except.error ())]).getLast?
      = some (FileEvent.finalizeTxt 2) := by
  have h := scheduler_appends_every_profile
    [("a", Except.ok ["u1", "u2"]), ("b", Except.error ())]
  refine ⟨h.1, ?_, h.2.2.2⟩
  have h2 := h.2.1 1 (by decide)
  simpa using h2

/-- C7: content fetching first derives the numeric post id from the URL
path; with no extractable id it returns unavailable without issuing any
HTTP request; otherwise fxtwitter is queried first and wins exactly when
its payload carries the `"tweet"` marker; syndication is queried only
when fxtwitter's payload lacks the marker, and wins when its payload
carries the `"text"` marker; when both fail the URL is unavailable with
both sources having been tried in order. -/
theorem fetch_post_priority (url : String)
    (fxResp synResp : Option (List (String × PyVal))) :
    (extractTweetId url = Option.none →
      fetchPost url fxResp synResp = (Option.none, [])) ∧
    (extractTweetId url ≠ Option.none →
      ((fxMarker fxResp = true →
          ∃ es, fxResp = some es ∧
            fetchPost url fxResp synResp =
              (some ⟨es, "fxtwitter"⟩, [ApiCall.fxtwitter])) ∧
       (fxMarker fxResp = false → synMarker synResp = true →
          ∃ es, synResp = some es ∧
            fetchPost url fxResp synResp =
              (some ⟨es, "syndication"⟩, [ApiCall.fxtwitter, ApiCall.syndication])) ∧
       (fxMarker fxResp = false → synMarker synResp = false →
          fetchPost url fxResp synResp =
            (Option.none, [ApiCall.fxtwitter, ApiCall.syndication])))) := by
  refine ⟨fun hx => ?_, fun hx => ?_⟩
  · unfold fetchPost
    rw [hx]
  · obtain ⟨tid, htid⟩ := Option.ne_none_iff_exists'.mp hx
    refine ⟨fun hfx => ?_, fun hfx hsyn => ?_, fun hfx hsyn => ?_⟩
    · cases fxResp with
      | none => exact absurd hfx (by simp [fxMarker])
      | some es =>
        exact ⟨es, rfl, by simp [fetchPost, htid, hfx]⟩
    · cases synResp with
      | none => exact absurd hsyn (by simp [synMarker])
      | some es =>
        refine ⟨es, rfl, ?_⟩
        cases fxResp with
        | none => simp [fetchPost, fetchSecond, htid, hsyn]
        | some es' => simp [fetchPost, fetchSecond, htid, hfx, hsyn]
    · cases fxResp with
      | none =>
        cases synResp with
        | none => simp [fetchPost, fetchSecond, htid]
        | some es => simp [fetchPost, fetchSecond, htid, hsyn]
      | some es' =>
        cases synResp with
        | none => simp [fetchPost, fetchSecond, htid, hfx]
        | some es => simp [fetchPost, fetchSecond, htid, hfx, hsyn]

/-- Witness for `fetch_post_priority`: a malformed URL issues no
request; for a well-formed URL whose fxtwitter payload lacks the
`"tweet"` marker while syndication carries `"text"`, the result comes
from syndication after both calls. -/
theorem fetch_post_priority_witness :
    fetchPost "not a post url"
      (some [("tweet", PyVal.dict [("id", PyVal.int 1)])]) Option.none =
      (Option.none, []) ∧
    fetchPost "https://x.com/alice/status/123"
      (some [("code", PyVal.int 404)]) (some [("text", PyVal.str "hello")]) =
      (some ⟨[("text", PyVal.str "hello")], "syndication"⟩,
        [ApiCall.fxtwitter, ApiCall.syndication]) := by
  constructor
  · exact (fetch_post_priority "not a post url"
      (some [("tweet", PyVal.dict [("id", PyVal.int 1)])]) Option.none).1 rfl
  · obtain ⟨es, hes, heq⟩ := ((fetch_post_priority "https://x.com/alice/status/123"
      (some [("code", PyVal.int 404)]) (some [("text", PyVal.str "hello")])).2
      (by decide)).2.1 rfl rfl
    cases hes
    exact heq

end CrawHot
